import Mathlib

/-!
Verification development for the ehlab-leds LED controller (src/leds.py).

The Python source is embedded shallowly: pure functions become Lean
functions over ℕ / ℤ / lists, stateful code becomes explicit state
passing, thread interleavings become explicit event traces, and Python
exceptions become Except values.  Machine floating point (Python floats
are IEEE-754 binary64) is modelled exactly by rational arithmetic kept
as numerator/denominator pairs of naturals, with round-to-nearest-even
at 53 significant bits.
-/

namespace EhlabLeds

/-! ## ColourCodec: rgb_to_24bit (src/leds.py lines 44-53)

The Python code computes, for each channel value c,
`int(c * (brightness_pct/100))` in binary64 floating point and packs the
four scaled channels as `white<<24 | green<<16 | red<<8 | blue`.

The binary64 arithmetic is modelled exactly: a nonnegative float value
is a dyadic rational; `b/100` and the product `c * (b/100)` are each the
exact rational result rounded to 53 significant bits with ties to even
(the IEEE-754 default).  Rationals are carried as unreduced pairs
(numerator, denominator) of naturals, so every definition evaluates by
kernel reduction.  On the whole claim domain (brightness 0-100, channel
0-255) this model was cross-checked value by value against the float
arithmetic of CPython.
-/

/-- Round n/d (d > 0) to the nearest integer, ties to even. -/
def rne (n d : ℕ) : ℕ :=
  if 2 * (n % d) < d then n / d
  else if d < 2 * (n % d) then n / d + 1
  else if (n / d) % 2 = 0 then n / d else n / d + 1

/-- Scale the positive rational n/d into the binormalised mantissa range
[2^52, 2^53) by repeated doubling of numerator or denominator, returning
(n, d, u, dn) with n/d = (input n/d) * 2^u / 2^dn.  Fuel-bounded
structural recursion; fuel 300 is ample for every value this
development evaluates (all lie in [2^-60, 2^60]). -/
def normPos : ℕ → ℕ → ℕ → ℕ → ℕ → ℕ × ℕ × ℕ × ℕ
  | 0, n, d, u, dn => (n, d, u, dn)
  | fuel+1, n, d, u, dn =>
    if n < 2^52 * d then normPos fuel (n*2) d (u+1) dn
    else if 2^53 * d ≤ n then normPos fuel n (d*2) u (dn+1)
    else (n, d, u, dn)

/-- Round the nonnegative rational n/d (d > 0) to the nearest binary64
value (round-to-nearest, ties to even), returned as a rational pair. -/
def roundDouble (n d : ℕ) : ℕ × ℕ :=
  if n = 0 then (0, 1)
  else
    let r := normPos 300 n d 0 0
    (rne r.1 r.2.1 * 2^r.2.2.2, 2^r.2.2.1)

/-- Python `int(c * (brightness_pct/100))` for channel c and brightness
bp: the division bp/100 rounds to a double, the product with c rounds to
a double, and int() truncates (= floor on this nonnegative domain). -/
def pyScale (bp c : ℕ) : ℕ :=
  let x := roundDouble bp 100
  let y := roundDouble (c * x.1) x.2
  y.1 / y.2

/-- src/leds.py lines 44-53.  In Python `white` is a keyword argument
defaulting to 0; callers that omit it are modelled by passing 0.
`brightness_pct` is the module-level global read at call time, passed
here as the first argument. -/
def rgb_to_24bit (brightness_pct red green blue white : ℕ) : ℕ :=
  pyScale brightness_pct white <<< 24
    ||| pyScale brightness_pct green <<< 16
    ||| pyScale brightness_pct red <<< 8
    ||| pyScale brightness_pct blue

example : pyScale 29 100 = 28 := by decide
example : pyScale 100 255 = 255 := by decide
example : pyScale 100 10 = 10 := by decide
example : pyScale 70 10 = 7 := by decide
example : pyScale 70 90 = 62 := by decide
example : pyScale 0 255 = 0 := by decide
example : rgb_to_24bit 100 10 20 30 0 = 20 * 2^16 + 10 * 2^8 + 30 := by decide

/-! ## Frame (src/leds.py lines 60-109)

A Frame owns a fixed pixel count, a write generation `data`, a committed
generation `data2`, a last-commit timestamp `last_write`, an optional
liveness `timeout` and a `frame_ready` flag (a threading.Event).  Time
is modelled as a natural number of seconds (time.time() in the source);
each operation that reads the clock takes `now` as an argument. -/
structure Frame where
  last_write : ℕ
  pixels : ℕ
  data : List ℕ
  data2 : List ℕ
  timeout : Option ℕ
  frame_ready : Bool
deriving DecidableEq

/-- Frame.__init__ (lines 61-67): both generations start all zero and
last_write starts at 0. -/
def Frame.init (pixels : ℕ) (timeout : Option ℕ) : Frame :=
  { last_write := 0
    pixels := pixels
    data := List.replicate pixels 0
    data2 := List.replicate pixels 0
    timeout := timeout
    frame_ready := false }

/-- Frame.set_pixel (lines 69-73): Python list item assignment
`self.data[pixel] = colour` inside try/except IndexError/pass.  A Python
index in [0, len) writes that slot, an index in [-len, 0) wraps and
writes slot len+index, and any other index raises IndexError, which the
except swallows, leaving the frame unchanged. -/
def Frame.set_pixel (f : Frame) (pixel : ℤ) (colour : ℕ) : Frame :=
  if 0 ≤ pixel ∧ pixel < (f.data.length : ℤ) then
    { f with data := f.data.set pixel.toNat colour }
  else if -(f.data.length : ℤ) ≤ pixel ∧ pixel < 0 then
    { f with data := f.data.set ((f.data.length : ℤ) + pixel).toNat colour }
  else f

/-- Frame.set_all (lines 75-77): `for pixel in range(0, self.pixels):
self.data[pixel] = colour`. -/
def Frame.set_all (f : Frame) (colour : ℕ) : Frame :=
  { f with data := (List.range f.pixels).foldl (fun d p => d.set p colour) f.data }

/-- Frame.show (lines 79-82), the commit operation: record the commit
time, copy the write generation into the committed generation, set the
frame_ready event.  (`show` is a Lean keyword, hence the prime.) -/
def Frame.show' (f : Frame) (now : ℕ) : Frame :=
  { f with last_write := now, data2 := f.data, frame_ready := true }

/-- Frame.active (lines 90-96): live when there is no timeout, or when
the last commit is more recent than `timeout` seconds ago. -/
def Frame.active (f : Frame) (now : ℕ) : Bool :=
  match f.timeout with
  | none => true
  | some t => now - f.last_write < t

/-- The strip sink (Adafruit_NeoPixel): per-pixel writes via
setPixelColor plus a flush-to-hardware operation; `flushes` counts the
hardware flushes (strip.show() calls). -/
structure Strip where
  led : List ℕ
  flushes : ℕ
deriving DecidableEq

def Strip.setPixelColor (s : Strip) (i : ℕ) (c : ℕ) : Strip :=
  { s with led := s.led.set i c }

def Strip.flush (s : Strip) : Strip :=
  { s with flushes := s.flushes + 1 }

/-- Frame.render_strip (lines 98-103), as executed with no interleaved
commit: if frame_ready is set, clear it, write the committed generation
to the strip and flush to hardware; otherwise do nothing.  (The torn
interleaved execution of the same lines is modelled separately below by
renderStep/renderExec.) -/
def Frame.render_strip (f : Frame) (strip : Strip) : Frame × Strip :=
  if f.frame_ready then
    ({ f with frame_ready := false },
     Strip.flush ((List.range f.pixels).foldl
       (fun s i => s.setPixelColor i (f.data2.getD i 0)) strip))
  else (f, strip)

/-- One pass of the Renderer.run scan (lines 490-510): walk the frame
list in priority order, and at the first frame whose active() is true,
call render_strip on it and break.  Returns the updated frames, the
updated strip, and the index of the frame that was rendered (none when
no frame is live, in which case nothing at all happens this tick). -/
def rendererTick (frames : List Frame) (now : ℕ) (strip : Strip) :
    List Frame × Strip × Option ℕ :=
  match frames with
  | [] => ([], strip, none)
  | f :: fs =>
    if f.active now then
      let r := f.render_strip strip
      (r.1 :: fs, r.2, some 0)
    else
      let r := rendererTick fs now strip
      (f :: r.1, r.2.1, (r.2.2).map (fun i => i + 1))

/-- The four frame buffers constructed at module level
(src/leds.py lines 630-633). -/
def frame_net : Frame := Frame.init 776 (some 1)

def frame_music : Frame := Frame.init 776 (some 1)

def frame_main : Frame := Frame.init 776 (some 5)

def frame_fallback : Frame := Frame.init 776 none

/-! ## LedProgram (src/leds.py lines 112-149)

Python exceptions that the claims turn on are modelled as error values:
LedExit (the cooperative-cancellation signal), plus the TypeError,
ValueError and IndexError that malformed-packet handling can raise. -/
inductive PyErr where
  | ledExit
  | typeError
  | valueError
  | indexError
deriving DecidableEq

deriving instance DecidableEq for Except

/-- The state of a LedProgram: its bound frame and the cancellation
flag.  Effect-specific fields live in the per-program structures. -/
structure LedProgram where
  frame : Frame
  exit_requested : Bool
deriving DecidableEq

def LedProgram.set_pixel (p : LedProgram) (pixel : ℤ) (colour : ℕ) : LedProgram :=
  { p with frame := p.frame.set_pixel pixel colour }

def LedProgram.set_all (p : LedProgram) (colour : ℕ) : LedProgram :=
  { p with frame := p.frame.set_all colour }

/-- LedProgram.show (lines 126-129): raise LedExit if cancellation was
requested, otherwise commit the frame. -/
def LedProgram.show' (p : LedProgram) (now : ℕ) : Except PyErr LedProgram :=
  if p.exit_requested then .error .ledExit
  else .ok { p with frame := p.frame.show' now }

/-- LedProgram.sleep (lines 146-149): raise LedExit if cancellation was
requested, otherwise sleep for t; the returned number is the duration
actually slept. -/
def LedProgram.sleep (p : LedProgram) (t : ℕ) : Except PyErr ℕ :=
  if p.exit_requested then .error .ledExit else .ok t

/-- LedProgram.stop (lines 143-144): just sets the flag. -/
def LedProgram.stop (p : LedProgram) : LedProgram :=
  { p with exit_requested := true }

/-! ## ServerProgram, the UDP packet ingestor (src/leds.py lines 382-462) -/

/-- The triplet loop shared by the 0x03/0x04/0x05 branches
(lines 436-442, 446-452, 456-462):
`while pos + 2 < len(data): r, g, b = data[pos:pos+3];
self.set_pixel(pixel, rgb_to_24bit(r, g, b)); pixel += 1; pos += 3`.
The cursor pos is represented by the remaining suffix data[pos:] (the
guard pos + 2 < len(data) holds exactly when that suffix still has a
complete triplet); a trailing group of fewer than 3 bytes fails the
guard and is dropped. -/
def writeTriplets (bp : ℕ) : Frame → ℕ → List ℕ → Frame
  | f, _, [] => f
  | f, _, [_] => f
  | f, _, [_, _] => f
  | f, pixel, r :: g :: b :: rest =>
    writeTriplets bp (f.set_pixel (pixel : ℤ) (rgb_to_24bit bp r g b 0)) (pixel + 1) rest

/-- One datagram through the dispatch in ServerProgram.loop
(lines 418-462).  Notes on the error branches, which mirror what CPython
raises there:
* opcode 0x01 with at least 3 payload bytes: `r, g, b = data[1:4]`
  unpacks, but the next line `self.set_all(r, g, b)` passes three
  positional arguments to LedProgram.set_all(self, colour) (line 123),
  so every such packet raises TypeError before any write or commit;
* opcode 0x01 with fewer than 3 payload bytes: the slice data[1:4] has
  fewer than 3 elements, so the tuple unpack raises ValueError;
* opcodes 0x04/0x05 with total length < 3: reading data[1] or data[2]
  raises IndexError.
All three propagate out of loop() before any frame mutation. -/
def processPacket (bp : ℕ) (p : LedProgram) (data : List ℕ) (now : ℕ) :
    Except PyErr LedProgram :=
  if 0 < data.length then
    if data.getD 0 0 = 0x01 then
      if 4 ≤ data.length then .error .typeError
      else .error .valueError
    else if data.getD 0 0 = 0x03 then
      LedProgram.show' { p with frame := writeTriplets bp p.frame 0 (data.drop 1) } now
    else if data.getD 0 0 = 0x04 then
      if 3 ≤ data.length then
        let start := (data.getD 1 0) <<< 8 + data.getD 2 0
        LedProgram.show' { p with frame := writeTriplets bp p.frame start (data.drop 3) } now
      else .error .indexError
    else if data.getD 0 0 = 0x05 then
      if 3 ≤ data.length then
        let start := (data.getD 1 0) <<< 8 + data.getD 2 0
        .ok { p with frame := writeTriplets bp p.frame start (data.drop 3) }
      else .error .indexError
    else .ok p
  else .ok p

/-- ServerProgram.run (lines 386-394) around one received datagram: any
exception escaping loop() is caught and logged, then the thread returns
only if exit_requested is set, else it sleeps 1 second and re-enters
loop().  Returns the state afterwards and whether the ingestor
terminated.  A successfully handled datagram keeps execution inside
the receive loop inside loop(). -/
def ServerProgram.runIter (bp : ℕ) (p : LedProgram) (data : List ℕ) (now : ℕ) :
    LedProgram × Bool :=
  match processPacket bp p data now with
  | .ok p1 => (p1, false)
  | .error _ => (p, p.exit_requested)

/-! ## PixelPicker (src/leds.py lines 333-347) and its control handler
(lines 624-626) -/

/-- PixelPicker state: the bound frame, the cancellation flag, and the
`data` pixel map.  The map is the parsed JSON object, kept in insertion
order as (int(key), (r, g, b)) entries. -/
structure PixelPicker where
  frame : Frame
  exit_requested : Bool
  data : List (ℕ × ℕ × ℕ × ℕ)
  chosen_pixel : ℕ
deriving DecidableEq

/-- PixelPicker.setup (lines 334-339): store the parameters, blank the
strip and commit.  run() (line 132) clears exit_requested just before
setup, so setup commits unconditionally. -/
def PixelPicker.setup (bp : ℕ) (frame : Frame) (data : List (ℕ × ℕ × ℕ × ℕ))
    (chosen_pixel : ℕ) (now : ℕ) : PixelPicker :=
  { frame := (frame.set_all (rgb_to_24bit bp 0 0 0 0)).show' now
    exit_requested := false
    data := data
    chosen_pixel := chosen_pixel }

/-- The body of PixelPicker.loop (lines 341-347): write each entry of
the map into the write generation, with a cooperative sleep (hence a
cancellation check) after each write. -/
def pickerApply (bp : ℕ) (flag : Bool) (f : Frame) :
    List (ℕ × ℕ × ℕ × ℕ) → Except PyErr Frame
  | [] => .ok f
  | (k, r, g, b) :: rest =>
    let f1 := f.set_pixel (k : ℤ) (rgb_to_24bit bp r g b 0)
    if flag then .error .ledExit
    else pickerApply bp flag f1 rest

/-- PixelPicker.loop (lines 341-347): apply every entry of the current
map, then commit once. -/
def PixelPicker.loop (bp : ℕ) (pp : PixelPicker) (now : ℕ) : Except PyErr PixelPicker :=
  match pickerApply bp pp.exit_requested pp.frame pp.data with
  | .error e => .error e
  | .ok f1 =>
    if pp.exit_requested then .error .ledExit
    else .ok { pp with frame := f1.show' now }

/-- MessageHandler.on_picker_json (lines 624-626):
`presets["pixelpicker"].data = json.loads(message.payload.decode())` -
the whole map attribute is replaced by the newly parsed object. -/
def PixelPicker.on_picker_json (pp : PixelPicker) (m : List (ℕ × ℕ × ℕ × ℕ)) :
    PixelPicker :=
  { pp with data := m }

/-! ## Interleaving of commit with the render loop (for the atomicity
claim).

Frame.show (line 81) rebinds self.data2 to a fresh copy of the write
generation; the render loop (lines 101-102) evaluates `self.data2[i]`
afresh on every iteration.  Under CPython threading the attribute
rebinding can land between two iterations, so the per-iteration
dereference is modelled explicitly: a trace of renderer read steps with
commit steps interleaved at arbitrary points. -/
inductive RenderAct where
  | read
  | commit (g : List ℕ)
deriving DecidableEq

/-- State of one execution of the render loop: the current value of the
data2 attribute, the loop index, and the strip contents written so
far. -/
structure RenderLoopState where
  data2 : List ℕ
  i : ℕ
  led : List ℕ
deriving DecidableEq

/-- One step: a renderer iteration executes
`strip.setPixelColor(i, self.data2[i])` reading the data2 attribute at
that moment (line 102); a commit executes `self.data2 = self.data.copy()`
(line 81) where g is the copied write generation. -/
def renderStep (s : RenderLoopState) : RenderAct → RenderLoopState
  | .read => { s with led := s.led.set s.i (s.data2.getD s.i 0), i := s.i + 1 }
  | .commit g => { s with data2 := g }

def renderExec (s : RenderLoopState) (acts : List RenderAct) : RenderLoopState :=
  acts.foldl renderStep s

/-! ## Program supervision (src/leds.py lines 465-484 and 514-540).

MainLedThread.loop serialises hot-swaps: when a new program is
requested, the current runner thread (if any) is stopped with join
semantics (ProgramRunnerThread.stop, lines 482-484: set the cancellation
flag, then block until the thread has fully terminated) and only then is
a fresh runner thread started.  The model is an event trace: a commit
event by a runner thread, which requires that runner to still be
running, or a swap.  Because stop() returns only after the old thread
has terminated, everything the old runner does is ordered before the
swap completes, so the swap is one trace event; runner identities are
fresh naturals. -/
inductive SupEvent where
  | commit (rid : ℕ)
  | swap
deriving DecidableEq

/-- alive: runner threads started against the main frame and not yet
terminated; progthread: the runner tracked by MainLedThread.progthread;
nextId: source of fresh runner identities. -/
structure SupConfig where
  alive : List ℕ
  progthread : Option ℕ
  nextId : ℕ
deriving DecidableEq

/-- MainLedThread starts with progthread = None and no runner
(lines 514-516). -/
def supInit : SupConfig := ⟨[], none, 0⟩

/-- One pass of MainLedThread.loop with a pending new_program
(lines 526-540): stop (and join) the tracked runner if there is one,
then start a fresh runner for the new program. -/
def doSwap (c : SupConfig) : SupConfig :=
  let al := match c.progthread with
    | some r => c.alive.erase r
    | none => c.alive
  ⟨al ++ [c.nextId], some c.nextId, c.nextId + 1⟩

inductive SupStep : SupConfig → SupEvent → SupConfig → Prop where
  | commit {c : SupConfig} {r : ℕ} (h : r ∈ c.alive) : SupStep c (.commit r) c
  | swap {c : SupConfig} : SupStep c .swap (doSwap c)

inductive SupTrace : SupConfig → List SupEvent → SupConfig → Prop where
  | nil {c : SupConfig} : SupTrace c [] c
  | cons {c c2 c3 : SupConfig} {e : SupEvent} {evs : List SupEvent}
      (h1 : SupStep c e c2) (h2 : SupTrace c2 evs c3) : SupTrace c (e :: evs) c3

/-- Supervisor invariant: at most one runner is alive, it is the tracked
one, and every runner identity in use is below the freshness counter. -/
def SupInv (c : SupConfig) : Prop :=
  (c.alive = [] ∨ ∃ r, c.alive = [r] ∧ c.progthread = some r)
  ∧ (∀ r ∈ c.alive, r < c.nextId)
  ∧ (∀ r, c.progthread = some r → r < c.nextId)

/-! ## Concrete scenario states used by the closed theorems below -/

/-- The ServerProgram bound to the network frame (src/leds.py line 657),
freshly started. -/
def c4server0 : LedProgram := ⟨frame_net, false⟩

/-- Write generation after the 0x05 packet [5,0,1,10,20,30]: pixel 1
holds the encoding of (10,20,30). -/
def c4data : List ℕ := frame_net.data.set 1 (rgb_to_24bit 100 10 20 30 0)

/-- Expected state after that 0x05 packet: pixel written, nothing
committed. -/
def c4afterUpload : LedProgram := ⟨{ frame_net with data := c4data }, false⟩

/-- Write generation after the follow-up 0x04 packet [4,0,2,5,6,7]:
pixel 2 additionally holds the encoding of (5,6,7). -/
def c4dataBoth : List ℕ := c4data.set 2 (rgb_to_24bit 100 5 6 7 0)

/-- Expected state after that 0x04 packet at time 44: both writes
published together by a single commit. -/
def c4afterCommit : LedProgram :=
  ⟨{ last_write := 44, pixels := 776, data := c4dataBoth, data2 := c4dataBoth
     timeout := some 1, frame_ready := true }, false⟩

/-- The pixelpicker preset (bound to frame_main, line 646) after its
setup tick and the two posted pixel-map updates
{"5": [10,20,30]} then {"7": [0,0,0]}. -/
def c9pp2 : PixelPicker :=
  ((PixelPicker.setup 100 frame_main [] 1 0).on_picker_json
      [(5, 10, 20, 30)]).on_picker_json [(7, 0, 0, 0)]

/-- Two loop ticks of the pixel-map program after those two posts. -/
def c9run : Except PyErr PixelPicker :=
  match PixelPicker.loop 100 c9pp2 1 with
  | .ok pp3 => PixelPicker.loop 100 pp3 2
  | .error e => .error e

/-- Committed value of pixel i after the two ticks (999 if the run
raised, which it does not). -/
def c9pixel (i : ℕ) : ℕ :=
  match c9run with
  | .ok pp => pp.frame.data2.getD i 999
  | .error _ => 999

/-! ## Helper lemmas about the binary64 model -/

lemma rne_le {n d k : ℕ} (hd : 0 < d) (h : n ≤ k * d) : rne n d ≤ k := by
  have hdm := Nat.div_add_mod n d
  have hdiv : n / d ≤ k := by
    have h1 := Nat.div_le_div_right (c := d) h
    rwa [Nat.mul_div_cancel _ hd] at h1
  have hstrict : 0 < n % d → n / d + 1 ≤ k := by
    intro hr
    have h1 : d * (n / d) < n := by omega
    have h2 : d * (n / d) < d * k := by
      apply Nat.lt_of_lt_of_le h1
      rw [Nat.mul_comm]
      exact h
    exact Nat.lt_of_mul_lt_mul_left h2
  unfold rne
  split
  · exact hdiv
  split
  · exact hstrict (by omega)
  split
  · exact hdiv
  · exact hstrict (by omega)

lemma normPos_spec : ∀ (fuel n d u dn : ℕ), 0 < d → n < 2^53 * d →
    (normPos fuel n d u dn).2.2.2 = dn ∧ 0 < (normPos fuel n d u dn).2.1 ∧
      (normPos fuel n d u dn).1 * d * 2^u =
        n * (normPos fuel n d u dn).2.1 * 2^(normPos fuel n d u dn).2.2.1 := by
  intro fuel
  induction fuel with
  | zero =>
    intro n d u dn hd _
    exact ⟨rfl, hd, rfl⟩
  | succ fuel ih =>
    intro n d u dn hd hlt
    by_cases h1 : n < 2^52 * d
    · have hrec := ih (n*2) d (u+1) dn hd (by omega)
      simp only [normPos, if_pos h1]
      refine ⟨hrec.1, hrec.2.1, ?_⟩
      have h3 := hrec.2.2
      have hpow : (2:ℕ)^(u+1) = 2^u * 2 := by ring
      rw [hpow] at h3
      have h4 : (normPos fuel (n*2) d (u+1) dn).1 * d * 2 ^ u * 2 =
          n * (normPos fuel (n*2) d (u+1) dn).2.1 *
            2 ^ (normPos fuel (n*2) d (u+1) dn).2.2.1 * 2 := by
        calc (normPos fuel (n*2) d (u+1) dn).1 * d * 2 ^ u * 2
            = (normPos fuel (n*2) d (u+1) dn).1 * d * (2 ^ u * 2) := by ring
          _ = n * 2 * (normPos fuel (n*2) d (u+1) dn).2.1 *
                2 ^ (normPos fuel (n*2) d (u+1) dn).2.2.1 := h3
          _ = n * (normPos fuel (n*2) d (u+1) dn).2.1 *
                2 ^ (normPos fuel (n*2) d (u+1) dn).2.2.1 * 2 := by ring
      omega
    · have h2 : ¬ (2^53 * d ≤ n) := by omega
      simp only [normPos, if_neg h1, if_neg h2]
      exact ⟨trivial, hd, trivial⟩

lemma roundDouble_le {n d B : ℕ} (hd : 0 < d) (hB : B < 2^53) (h : n ≤ B * d) :
    (roundDouble n d).1 ≤ B * (roundDouble n d).2 ∧ 0 < (roundDouble n d).2 := by
  unfold roundDouble
  by_cases h0 : n = 0
  · simp [h0]
  · simp only [if_neg h0]
    have hlt : n < 2^53 * d := by
      have : B * d < 2^53 * d := by
        exact Nat.mul_lt_mul_of_lt_of_le hB (le_refl d) hd
      omega
    obtain ⟨hdn, hD, hinv⟩ := normPos_spec 300 n d 0 0 hd hlt
    simp only [hdn, pow_zero, Nat.mul_one, mul_one] at hinv ⊢
    constructor
    · apply rne_le hD
      have hle : (normPos 300 n d 0 0).1 * d ≤
          B * 2 ^ (normPos 300 n d 0 0).2.2.1 * (normPos 300 n d 0 0).2.1 * d := by
        calc (normPos 300 n d 0 0).1 * d
            = n * (normPos 300 n d 0 0).2.1 * 2 ^ (normPos 300 n d 0 0).2.2.1 := hinv
          _ ≤ B * d * (normPos 300 n d 0 0).2.1 * 2 ^ (normPos 300 n d 0 0).2.2.1 := by
              apply Nat.mul_le_mul_right
              exact Nat.mul_le_mul_right _ h
          _ = B * 2 ^ (normPos 300 n d 0 0).2.2.1 * (normPos 300 n d 0 0).2.1 * d := by
              ring
      exact Nat.le_of_mul_le_mul_right hle hd
    · exact Nat.pos_pow_of_pos _ (by norm_num)

lemma pyScale_le {bp c : ℕ} (hbp : bp ≤ 100) (hc : c ≤ 255) : pyScale bp c ≤ 255 := by
  unfold pyScale
  simp only
  have hx := roundDouble_le (n := bp) (d := 100) (B := 1)
    (by norm_num) (by norm_num) (by omega)
  have hmul : c * (roundDouble bp 100).1 ≤ 255 * (roundDouble bp 100).2 := by
    calc c * (roundDouble bp 100).1 ≤ 255 * (roundDouble bp 100).1 :=
          Nat.mul_le_mul_right _ hc
      _ ≤ 255 * (roundDouble bp 100).2 := by
          apply Nat.mul_le_mul_left
          omega
  have hy := roundDouble_le (n := c * (roundDouble bp 100).1)
    (d := (roundDouble bp 100).2) (B := 255) hx.2 (by norm_num) hmul
  have := Nat.div_le_div_right (c := (roundDouble (c * (roundDouble bp 100).1)
    (roundDouble bp 100).2).2) hy.1
  rwa [Nat.mul_div_cancel _ hy.2] at this

lemma pack4 {w g r b : ℕ} (hw : w ≤ 255) (hg : g ≤ 255) (hr : r ≤ 255) (hb : b ≤ 255) :
    w <<< 24 ||| g <<< 16 ||| r <<< 8 ||| b = w * 2^24 + g * 2^16 + r * 2^8 + b := by
  rw [Nat.shiftLeft_eq, Nat.shiftLeft_eq, Nat.shiftLeft_eq]
  have s1 : w * 2^24 ||| g * 2^16 = w * 2^24 + g * 2^16 := by
    rw [Nat.mul_comm w (2^24)]
    rw [← Nat.mul_add_lt_is_or (by omega) w]
  have s2 : (w * 2^24 + g * 2^16) ||| r * 2^8 = w * 2^24 + g * 2^16 + r * 2^8 := by
    have e : w * 2^24 + g * 2^16 = 2^16 * (2^8 * w + g) := by ring
    rw [e, ← Nat.mul_add_lt_is_or (by omega) (2^8 * w + g)]
  have s3 : (w * 2^24 + g * 2^16 + r * 2^8) ||| b =
      w * 2^24 + g * 2^16 + r * 2^8 + b := by
    have e : w * 2^24 + g * 2^16 + r * 2^8 = 2^8 * (2^16 * w + 2^8 * g + r) := by ring
    rw [e, ← Nat.mul_add_lt_is_or (by omega) (2^16 * w + 2^8 * g + r)]
  rw [s1, s2, s3]

lemma and255_eq_mod (x : ℕ) : x &&& 255 = x % 256 := by
  have h := Nat.and_pow_two_sub_one_eq_mod x 8
  norm_num at h
  exact h

lemma unpack4 {w g r b : ℕ} (hw : w ≤ 255) (hg : g ≤ 255) (hr : r ≤ 255) (hb : b ≤ 255) :
    (w * 2^24 + g * 2^16 + r * 2^8 + b) >>> 24 &&& 255 = w ∧
    (w * 2^24 + g * 2^16 + r * 2^8 + b) >>> 16 &&& 255 = g ∧
    (w * 2^24 + g * 2^16 + r * 2^8 + b) >>> 8 &&& 255 = r ∧
    (w * 2^24 + g * 2^16 + r * 2^8 + b) &&& 255 = b ∧
    w * 2^24 + g * 2^16 + r * 2^8 + b < 2^32 := by
  rw [Nat.shiftRight_eq_div_pow, Nat.shiftRight_eq_div_pow, Nat.shiftRight_eq_div_pow,
    and255_eq_mod, and255_eq_mod, and255_eq_mod, and255_eq_mod]
  norm_num
  omega

/-! ## C1: the colour encoding contract -/

/-- C1, counterexample.  The claim states that each channel is scaled to
exactly floor(c*b/100); but the code computes int(c * (b/100)) in
binary64 floating point, and at brightness 29, green 100 the float
product is 28.999999999999996..., truncating to 28 while
floor(100*29/100) = 29.  So the encoder output differs from the value
the claim specifies. -/
theorem c1_encode_not_floor :
    rgb_to_24bit 29 0 100 0 0 ≠
      (0 * 29 / 100) <<< 24 ||| (100 * 29 / 100) <<< 16
        ||| (0 * 29 / 100) <<< 8 ||| (0 * 29 / 100)
    ∧ rgb_to_24bit 29 0 100 0 0 >>> 16 &&& 255 = 28
    ∧ 100 * 29 / 100 = 29 := by decide

/-- C1 as amended: with brightness in 0..100 and channels in 0..255, the
encoder returns the 32-bit value packing the binary64-scaled truncation
pyScale b c of each channel (which is floor(c*b/100) except at 12
brightness/channel pairs where float rounding gives one less) in the
[white:8][green:8][red:8][blue:8] most-to-least-significant layout, and
decoding each byte of the result recovers pyScale b c per channel. -/
theorem c1_encode_decode (bp red green blue white : ℕ)
    (hbp : bp ≤ 100) (hr : red ≤ 255) (hg : green ≤ 255)
    (hb : blue ≤ 255) (hw : white ≤ 255) :
    rgb_to_24bit bp red green blue white =
        pyScale bp white * 2^24 + pyScale bp green * 2^16
          + pyScale bp red * 2^8 + pyScale bp blue
    ∧ rgb_to_24bit bp red green blue white < 2^32
    ∧ rgb_to_24bit bp red green blue white >>> 24 &&& 255 = pyScale bp white
    ∧ rgb_to_24bit bp red green blue white >>> 16 &&& 255 = pyScale bp green
    ∧ rgb_to_24bit bp red green blue white >>> 8 &&& 255 = pyScale bp red
    ∧ rgb_to_24bit bp red green blue white &&& 255 = pyScale bp blue := by
  have bw := pyScale_le hbp hw
  have bg := pyScale_le hbp hg
  have br := pyScale_le hbp hr
  have bb := pyScale_le hbp hb
  have hpack : rgb_to_24bit bp red green blue white =
      pyScale bp white * 2^24 + pyScale bp green * 2^16
        + pyScale bp red * 2^8 + pyScale bp blue := by
    unfold rgb_to_24bit
    exact pack4 bw bg br bb
  obtain ⟨u1, u2, u3, u4, u5⟩ := unpack4 bw bg br bb
  exact ⟨hpack, hpack ▸ u5, hpack ▸ u1, hpack ▸ u2, hpack ▸ u3, hpack ▸ u4⟩

/-- Witness for c1_encode_decode at brightness 29 and the channels of
the counterexample. -/
theorem c1_encode_decode_witness :
    rgb_to_24bit 29 0 100 0 0 >>> 16 &&& 255 = pyScale 29 100
    ∧ pyScale 29 100 = 28 :=
  ⟨(c1_encode_decode 29 0 100 0 0 (by decide) (by decide) (by decide)
      (by decide) (by decide)).2.2.2.1, by decide⟩

/-! ## C2: renderer priority -/

lemma rendererTick_idx (frames : List Frame) (now : ℕ) (strip : Strip) :
    (rendererTick frames now strip).2.2 =
      List.findIdx? (fun f => f.active now) frames := by
  induction frames with
  | nil => rfl
  | cons f fs ih =>
    by_cases h : f.active now
    · simp [rendererTick, h]
    · simp [rendererTick, h, List.findIdx?_succ, ih]

lemma rendererTick_none {frames : List Frame} {now : ℕ} (strip : Strip)
    (h : List.findIdx? (fun f => f.active now) frames = none) :
    rendererTick frames now strip = (frames, strip, none) := by
  induction frames with
  | nil => rfl
  | cons f fs ih =>
    simp only [List.findIdx?_cons, List.findIdx?_succ] at h
    by_cases ha : f.active now
    · simp [ha] at h
    · simp only [ha, Bool.false_eq_true, ite_false] at h
      have h2 : List.findIdx? (fun f => f.active now) fs = none := by
        rcases h3 : List.findIdx? (fun f => f.active now) fs with _ | k
        · exact h3
        · rw [h3] at h
          simp at h
      simp [rendererTick, ha, ih h2]

lemma rendererTick_some {frames : List Frame} {now : ℕ} (strip : Strip) {i : ℕ}
    (h : List.findIdx? (fun f => f.active now) frames = some i) :
    rendererTick frames now strip =
      (frames.set i ((frames.getD i (Frame.init 0 none)).render_strip strip).1,
       ((frames.getD i (Frame.init 0 none)).render_strip strip).2, some i) := by
  induction frames generalizing i with
  | nil => simp [List.findIdx?] at h
  | cons f fs ih =>
    simp only [List.findIdx?_cons, List.findIdx?_succ] at h
    by_cases ha : f.active now
    · simp only [ha, ite_true] at h
      cases h
      simp [rendererTick, ha]
    · simp only [ha, Bool.false_eq_true, ite_false] at h
      rcases h3 : List.findIdx? (fun f => f.active now) fs with _ | k
      · rw [h3] at h
        simp at h
      · rw [h3] at h
        simp at h
        subst h
        simp [rendererTick, ha, ih h3]

/-- C2: on a renderer tick over the priority-ordered buffer list,
exactly the first buffer whose active(now) holds is rendered (the
returned index is the first-live index, the frame list is updated only
at that index, and the strip result comes from that frame alone);
when no buffer is live, the tick changes nothing -- in particular no
hardware write occurs; and because selection depends only on current
liveness, with buffers A, B, C where A is not live and B is live, the
next tick selects B without any explicit switch. -/
theorem c2_renderer_priority (frames : List Frame) (now : ℕ) (strip : Strip) :
    ((rendererTick frames now strip).2.2 =
        List.findIdx? (fun f => f.active now) frames)
    ∧ (List.findIdx? (fun f => f.active now) frames = none →
        rendererTick frames now strip = (frames, strip, none))
    ∧ (∀ i, List.findIdx? (fun f => f.active now) frames = some i →
        rendererTick frames now strip =
          (frames.set i ((frames.getD i (Frame.init 0 none)).render_strip strip).1,
           ((frames.getD i (Frame.init 0 none)).render_strip strip).2, some i))
    ∧ (∀ (A B C : Frame) (now2 : ℕ) (strip2 : Strip),
        A.active now2 = false → B.active now2 = true →
        (rendererTick [A, B, C] now2 strip2).2.2 = some 1) := by
  refine ⟨rendererTick_idx frames now strip,
    fun h => rendererTick_none strip h,
    fun i h => rendererTick_some strip h,
    fun A B C now2 strip2 hA hB => ?_⟩
  rw [rendererTick_idx]
  simp [List.findIdx?_cons, hA, hB]

/-- Witness for c2_renderer_priority: one live buffer behind one dead
buffer; the tick renders index 1, and on an empty list it renders
nothing and leaves the strip untouched. -/
theorem c2_renderer_priority_witness :
    (rendererTick [Frame.init 1 (some 1), Frame.init 1 none] 5 ⟨[0], 0⟩).2.2 = some 1
    ∧ rendererTick [] 5 ⟨[0], 0⟩ = ([], ⟨[0], 0⟩, none) := by
  constructor
  · have h := (c2_renderer_priority [Frame.init 1 (some 1), Frame.init 1 none]
      5 ⟨[0], 0⟩).2.2.1 1 (by decide)
    rw [h]
  · exact (c2_renderer_priority [] 5 ⟨[0], 0⟩).2.1 (by decide)

/-! ## C3: commit atomicity versus the render loop -/

/-- C3: the claimed atomicity does not hold.  With committed generation
[0, 0] and a commit of [7, 7] interleaved between the two loop
iterations of render_strip (the loop re-reads self.data2 on every
iteration, line 102, while Frame.show rebinds it, line 81), the strip
receives [0, 7]: a mix of the old and the new generation, equal to
neither.  The commit rebinding itself is atomic under the GIL; the
tearing comes from the renderer re-dereferencing the attribute
mid-frame. -/
theorem c3_commit_not_atomic :
    renderExec ⟨[0, 0], 0, [9, 9]⟩ [.read, .commit [7, 7], .read] =
      ⟨[7, 7], 2, [0, 7]⟩
    ∧ ([0, 7] : List ℕ) ≠ [0, 0]
    ∧ ([0, 7] : List ℕ) ≠ [7, 7] := by decide

/-! ## C5: cooperative cancellation at the commit/sleep yield points -/

/-- C5: when the cancellation flag is set, show() raises LedExit without
committing (no new state is produced, so the committed generation and
the last-commit timestamp are untouched) and sleep() raises LedExit
without sleeping; when the flag is clear both act normally, so the check
happens before the action; and the flag has no effect on the other
frame operations (set_pixel, set_all), which together with show/sleep
are all the yield points the base program offers. -/
theorem c5_cancellation_yield_points (p : LedProgram) (now t : ℕ)
    (pixel : ℤ) (colour : ℕ) :
    (p.exit_requested = true →
      p.show' now = .error .ledExit ∧ p.sleep t = .error .ledExit)
    ∧ (p.exit_requested = false →
      p.show' now = .ok { p with frame := p.frame.show' now } ∧ p.sleep t = .ok t)
    ∧ (LedProgram.set_pixel { p with exit_requested := true } pixel colour =
        { p.set_pixel pixel colour with exit_requested := true })
    ∧ (LedProgram.set_all { p with exit_requested := true } colour =
        { p.set_all colour with exit_requested := true })
    ∧ p.stop = { p with exit_requested := true } := by
  refine ⟨fun h => ?_, fun h => ?_, rfl, rfl, rfl⟩
  · simp [LedProgram.show', LedProgram.sleep, h]
  · simp [LedProgram.show', LedProgram.sleep, h]

/-- Witness for c5_cancellation_yield_points: a cancelled program over a
2-pixel frame. -/
theorem c5_cancellation_yield_points_witness :
    LedProgram.show' ⟨Frame.init 2 none, true⟩ 7 = .error .ledExit
    ∧ LedProgram.sleep ⟨Frame.init 2 none, true⟩ 3 = .error .ledExit :=
  (c5_cancellation_yield_points ⟨Frame.init 2 none, true⟩ 7 3 0 0).1 rfl

/-! ## C7: out-of-range set_pixel -/

/-- C7 counterexample: a negative index is not ignored.  Python list
assignment wraps negative indices, so set_pixel(-1, 7) on a 3-pixel
frame writes slot 2 of the write generation, contradicting the claim
that every index outside 0..size-1 leaves every slot unchanged. -/
theorem c7_negative_index_writes :
    ((Frame.init 3 none).set_pixel (-1) 7).data = [0, 0, 7]
    ∧ ((Frame.init 3 none).set_pixel (-1) 7).data ≠ (Frame.init 3 none).data := by
  decide

/-- C7 as amended: set_pixel never raises for any index; an index at or
above size, or below -size, leaves the frame (both generations) entirely
unchanged; an index in [-size, 0) wraps Python-style and writes slot
size+index of the write generation only; and an in-range index writes
that slot of the write generation only.  The committed generation is
unchanged in every case. -/
theorem c7_set_pixel_ranges (f : Frame) (i : ℤ) (c : ℕ) :
    (((f.data.length : ℤ) ≤ i ∨ i < -(f.data.length : ℤ)) → f.set_pixel i c = f)
    ∧ (-(f.data.length : ℤ) ≤ i → i < 0 →
        f.set_pixel i c =
          { f with data := f.data.set ((f.data.length : ℤ) + i).toNat c })
    ∧ (0 ≤ i → i < (f.data.length : ℤ) →
        f.set_pixel i c = { f with data := f.data.set i.toNat c })
    ∧ (f.set_pixel i c).data2 = f.data2 := by
  refine ⟨fun h => ?_, fun h1 h2 => ?_, fun h1 h2 => ?_, ?_⟩
  · unfold Frame.set_pixel
    rw [if_neg (by omega), if_neg (by omega)]
  · unfold Frame.set_pixel
    rw [if_neg (by omega), if_pos ⟨h1, h2⟩]
  · unfold Frame.set_pixel
    rw [if_pos ⟨h1, h2⟩]
  · unfold Frame.set_pixel
    split
    · rfl
    split
    · rfl
    · rfl

/-- Witness for c7_set_pixel_ranges: on a 2-pixel frame, index 5 is
ignored and index -1 writes slot 1. -/
theorem c7_set_pixel_ranges_witness :
    (Frame.init 2 none).set_pixel 5 9 = Frame.init 2 none
    ∧ (Frame.init 2 none).set_pixel (-1) 9 =
        { Frame.init 2 none with data := (Frame.init 2 none).data.set 1 9 } := by
  constructor
  · exact (c7_set_pixel_ranges (Frame.init 2 none) 5 9).1 (by decide)
  · have h := (c7_set_pixel_ranges (Frame.init 2 none) (-1) 9).2.1
      (by decide) (by decide)
    rw [h]
    decide

/-! ## C10: startup liveness of the timed buffers -/

/-- C10: a freshly constructed frame with timeout T has last_write 0, so
it is not live at any time at or past T; hence at startup, with the
clock at least 1 second in (both network frames are built with
timeout 1), the renderer scan never selects the network or secondary
network buffer before its first commit, and falls through to whatever
sits in the main-program slot: it renders that slot exactly when that
slot is live. -/
theorem c10_fresh_frames_not_live (n T now : ℕ) (main : Frame) (strip : Strip)
    (hT : T ≤ now) (h1 : 1 ≤ now) :
    (Frame.init n (some T)).last_write = 0
    ∧ (Frame.init n (some T)).active now = false
    ∧ (rendererTick [frame_net, frame_music, main] now strip).2.2 =
        (if main.active now then some 2 else none) := by
  refine ⟨rfl, ?_, ?_⟩
  · simp [Frame.init, Frame.active]
    omega
  · rw [rendererTick_idx]
    have hnet : frame_net.active now = false := by
      have ht : frame_net.timeout = some 1 := rfl
      have hlw : frame_net.last_write = 0 := rfl
      simp [Frame.active, ht, hlw]
      omega
    have hmusic : frame_music.active now = false := by
      have ht : frame_music.timeout = some 1 := rfl
      have hlw : frame_music.last_write = 0 := rfl
      simp [Frame.active, ht, hlw]
      omega
    by_cases hm : main.active now
    · simp [List.findIdx?_cons, List.findIdx?_succ, hnet, hmusic, hm]
    · simp [List.findIdx?_cons, List.findIdx?_succ, hnet, hmusic, hm]

/-- Witness for c10_fresh_frames_not_live at time 1 with the always-live
fallback frame in the main slot. -/
theorem c10_fresh_frames_not_live_witness :
    (Frame.init 776 (some 1)).active 1 = false
    ∧ (rendererTick [frame_net, frame_music, frame_fallback] 1 ⟨[], 0⟩).2.2 =
        (if frame_fallback.active 1 then some 2 else none) :=
  ⟨(c10_fresh_frames_not_live 776 1 1 frame_fallback ⟨[], 0⟩
      (by decide) (by decide)).2.1,
   (c10_fresh_frames_not_live 776 1 1 frame_fallback ⟨[], 0⟩
      (by decide) (by decide)).2.2⟩

/-! ## C4 and C8: the UDP wire protocol -/

/-- C4: modelled execution at the failing input.  The 0x05 packet
[5,0,1,10,20,30] writes pixel 1 but leaves the committed generation,
the commit timestamp and the frame_ready flag untouched (zero
renderer-visible commits, as claimed); but the follow-up 0x01 packet
[1,10,20,30] raises TypeError inside the dispatch (set_all is called
with three positional arguments, src/leds.py line 428 against line 123)
and therefore also commits nothing, where the claim requires exactly one
commit.  A follow-up 0x04 packet does behave as claimed: it publishes
the 0x05 writes and its own write in a single commit. -/
theorem c4_batch_commit :
    processPacket 100 c4server0 [5, 0, 1, 10, 20, 30] 42 = .ok c4afterUpload
    ∧ c4afterUpload.frame.data2 = frame_net.data2
    ∧ c4afterUpload.frame.frame_ready = false
    ∧ c4afterUpload.frame.last_write = 0
    ∧ processPacket 100 c4afterUpload [1, 10, 20, 30] 43 = .error .typeError
    ∧ processPacket 100 c4afterUpload [4, 0, 2, 5, 6, 7] 44 = .ok c4afterCommit
    ∧ c4afterCommit.frame.data2.getD 1 0 = rgb_to_24bit 100 10 20 30 0
    ∧ c4afterCommit.frame.data2.getD 2 0 = rgb_to_24bit 100 5 6 7 0
    ∧ c4afterCommit.frame.frame_ready = true
    ∧ c4afterCommit.frame.last_write = 44 := by
  set_option maxRecDepth 100000 in decide!

/-- The triplet loop never looks past the last complete triplet:
truncating its input there does not change the result. -/
lemma writeTriplets_take (bp : ℕ) :
    ∀ (f : Frame) (px : ℕ) (xs : List ℕ),
      writeTriplets bp f px xs = writeTriplets bp f px (xs.take (3 * (xs.length / 3)))
  | _, _, [] => rfl
  | _, _, [_] => by simp [writeTriplets]
  | _, _, [_, _] => by simp [writeTriplets]
  | f, px, r :: g :: b :: rest => by
    have e : 3 * ((r :: g :: b :: rest).length / 3) = 3 * (rest.length / 3) + 2 + 1 := by
      simp
      omega
    rw [e, List.take_succ_cons,
      show 3 * (rest.length / 3) + 2 = 3 * (rest.length / 3) + 1 + 1 by omega,
      List.take_succ_cons, List.take_succ_cons]
    show writeTriplets bp _ (px + 1) rest =
      writeTriplets bp _ (px + 1) (rest.take (3 * (rest.length / 3)))
    exact writeTriplets_take bp _ _ rest

/-- C8 counterexample: a 0x01 packet with a single payload byte is not
silently truncated; the tuple unpack `r, g, b = data[1:4]`
(src/leds.py line 427) raises ValueError, aborting loop() and tearing
down the receive socket until the outer handler rebinds it. -/
theorem c8_short_single_colour_raises :
    processPacket 100 ⟨frame_net, false⟩ [1, 255] 42 = .error .valueError := by
  decide

/-- C8 as amended: an empty datagram is ignored; an unknown opcode is
ignored; for opcodes 0x03, 0x04 and 0x05 a trailing incomplete triplet
is silently dropped (processing a packet equals processing the packet
truncated to its complete triplets); a 0x01 packet with fewer than 3
payload bytes instead raises ValueError out of the dispatch -- it
commits and writes nothing, and the enclosing run() catches the error,
so no malformed or short packet is ever fatal to the ingestor; but the
error path tears down and re-binds the receive loop rather than
continuing it. -/
theorem c8_malformed_packets (bp now : ℕ) (p : LedProgram) (op h l : ℕ)
    (payload rest : List ℕ)
    (hop1 : op ≠ 1) (hop3 : op ≠ 3) (hop4 : op ≠ 4) (hop5 : op ≠ 5)
    (hshort : rest.length < 3) (hflag : p.exit_requested = false) :
    processPacket bp p [] now = .ok p
    ∧ processPacket bp p (op :: payload) now = .ok p
    ∧ processPacket bp p (3 :: payload) now =
        processPacket bp p (3 :: payload.take (3 * (payload.length / 3))) now
    ∧ processPacket bp p (4 :: h :: l :: payload) now =
        processPacket bp p (4 :: h :: l :: payload.take (3 * (payload.length / 3))) now
    ∧ processPacket bp p (5 :: h :: l :: payload) now =
        processPacket bp p (5 :: h :: l :: payload.take (3 * (payload.length / 3))) now
    ∧ processPacket bp p (1 :: rest) now = .error .valueError
    ∧ ServerProgram.runIter bp p (1 :: rest) now = (p, false) := by
  have hshort1 : processPacket bp p (1 :: rest) now = .error .valueError := by
    have hlen : ¬ (4 ≤ (1 :: rest).length) := by
      simp only [List.length_cons]
      omega
    simp [processPacket, hlen]
    omega
  refine ⟨rfl, ?_, ?_, ?_, ?_, hshort1, ?_⟩
  · simp [processPacket, hop1, hop3, hop4, hop5]
  · simp only [processPacket, List.getD_cons_zero, List.length_cons, List.length_take,
      List.drop_succ_cons, List.drop_zero]
    rw [writeTriplets_take bp p.frame 0 payload]
    norm_num
  · simp only [processPacket, List.getD_cons_zero, List.getD_cons_succ,
      List.length_cons, List.length_take, List.drop_succ_cons, List.drop_zero]
    rw [writeTriplets_take bp p.frame (h <<< 8 + l) payload]
    norm_num
  · simp only [processPacket, List.getD_cons_zero, List.getD_cons_succ,
      List.length_cons, List.length_take, List.drop_succ_cons, List.drop_zero]
    rw [writeTriplets_take bp p.frame (h <<< 8 + l) payload]
    norm_num
  · simp [ServerProgram.runIter, hshort1, hflag]

/-- Witness for c8_malformed_packets: unknown opcode 9 is ignored, and a
short 0x01 packet leaves the ingestor running. -/
theorem c8_malformed_packets_witness :
    processPacket 100 ⟨frame_net, false⟩ [9, 7, 7] 0 = .ok ⟨frame_net, false⟩
    ∧ ServerProgram.runIter 100 ⟨frame_net, false⟩ [1, 255] 0 =
        (⟨frame_net, false⟩, false) :=
  ⟨(c8_malformed_packets 100 0 ⟨frame_net, false⟩ 9 0 0 [7, 7] [255]
      (by decide) (by decide) (by decide) (by decide) (by decide) rfl).2.1,
   (c8_malformed_packets 100 0 ⟨frame_net, false⟩ 9 0 0 [7, 7] [255]
      (by decide) (by decide) (by decide) (by decide) (by decide) rfl).2.2.2.2.2.2⟩

/-! ## C6: serialised hot-swap -/

lemma supInv_init : SupInv supInit :=
  ⟨Or.inl rfl, fun r hr => absurd hr (List.not_mem_nil r), fun r hr => by cases hr⟩

lemma supInv_step {c c2 : SupConfig} {e : SupEvent}
    (h : SupStep c e c2) (hinv : SupInv c) : SupInv c2 := by
  cases h with
  | commit _ => exact hinv
  | swap =>
    obtain ⟨h1, h2, h3⟩ := hinv
    have hal : (match c.progthread with
        | some r => c.alive.erase r
        | none => c.alive) = [] := by
      rcases h1 with h | ⟨r0, hr0, hpt⟩
      · cases hpt2 : c.progthread <;> simp [h, hpt2]
      · rw [hpt, hr0]
        simp
    refine ⟨Or.inr ⟨c.nextId, ?_, rfl⟩, ?_, ?_⟩
    · simp only [doSwap, hal]
      rfl
    · intro r hr
      simp only [doSwap, hal, List.nil_append, List.mem_singleton] at hr
      simp [doSwap, hr]
    · intro r hr
      simp only [doSwap] at hr
      cases hr
      simp [doSwap]

lemma supInv_trace {c c2 : SupConfig} {evs : List SupEvent}
    (h : SupTrace c evs c2) (hinv : SupInv c) : SupInv c2 := by
  induction h with
  | nil => exact hinv
  | cons h1 _ ih => exact ih (supInv_step h1 hinv)

lemma dead_step {c c2 : SupConfig} {e : SupEvent} {p : ℕ}
    (h : SupStep c e c2) (hlt : p < c.nextId) (hdead : p ∉ c.alive) :
    p < c2.nextId ∧ p ∉ c2.alive := by
  cases h with
  | commit _ => exact ⟨hlt, hdead⟩
  | swap =>
    constructor
    · simp [doSwap]
      omega
    · simp only [doSwap, List.mem_append, List.mem_singleton]
      rintro (hmem | hmem)
      · apply hdead
        rcases hpt : c.progthread with _ | r0
        · rw [hpt] at hmem
          exact hmem
        · rw [hpt] at hmem
          exact List.mem_of_mem_erase hmem
      · omega

lemma dead_trace {c c2 : SupConfig} {evs : List SupEvent} {p : ℕ}
    (h : SupTrace c evs c2) (hlt : p < c.nextId) (hdead : p ∉ c.alive) :
    SupEvent.commit p ∉ evs := by
  induction h generalizing p with
  | nil => exact List.not_mem_nil _
  | cons h1 _ ih =>
    obtain ⟨hlt2, hdead2⟩ := dead_step h1 hlt hdead
    rw [List.mem_cons]
    rintro (heq | hmem)
    · cases h1 with
      | commit hr =>
        cases heq
        exact hdead hr
      | swap => cases heq
    · exact ih hlt2 hdead2 hmem

/-- C6: in every reachable supervisor configuration at most one runner
thread is alive against the main frame; and whenever the supervisor
processes a hot-swap while runner p is the tracked active runner, the
swap first stops p with join semantics, so no trace that continues from
the completed swap ever contains a commit by p again -- in particular no
commit from the old program occurs at or after the first commit of the
new runner. -/
theorem c6_hotswap_serialised (evs : List SupEvent) (c : SupConfig)
    (htr : SupTrace supInit evs c) :
    c.alive.length ≤ 1
    ∧ ∀ (p : ℕ) (evs2 : List SupEvent) (c2 : SupConfig),
        c.progthread = some p → SupTrace (doSwap c) evs2 c2 →
        SupEvent.commit p ∉ evs2 := by
  have hinv : SupInv c := supInv_trace htr supInv_init
  constructor
  · rcases hinv.1 with h | ⟨r, hr, _⟩
    · simp [h]
    · simp [hr]
  · intro p evs2 c2 hpt htr2
    have hplt : p < c.nextId := hinv.2.2 p hpt
    apply dead_trace htr2
    · simp [doSwap]
      omega
    · have hal : (match c.progthread with
          | some r => c.alive.erase r
          | none => c.alive) = [] := by
        rcases hinv.1 with h | ⟨r0, hr0, hpt0⟩
        · simp [hpt, h]
        · rw [hpt, hr0]
          have : r0 = p := by
            rw [hpt] at hpt0
            cases hpt0
            rfl
          rw [this]
          simp
      simp only [doSwap, hal, List.nil_append, List.mem_singleton]
      omega

/-- Witness for c6_hotswap_serialised: runner 0 is started and commits;
a swap replaces it with runner 1; runner 1 commits; the trace after the
swap contains no commit by runner 0. -/
theorem c6_hotswap_serialised_witness :
    SupEvent.commit 0 ∉ [SupEvent.commit 1]
    ∧ (⟨[0], some 0, 1⟩ : SupConfig).alive.length ≤ 1 := by
  have tr1 : SupTrace supInit [SupEvent.swap, SupEvent.commit 0] ⟨[0], some 0, 1⟩ :=
    SupTrace.cons SupStep.swap
      (SupTrace.cons (SupStep.commit (by decide)) SupTrace.nil)
  have tr2 : SupTrace (doSwap ⟨[0], some 0, 1⟩) [SupEvent.commit 1] ⟨[1], some 1, 2⟩ :=
    SupTrace.cons (SupStep.commit (by decide)) SupTrace.nil
  exact ⟨(c6_hotswap_serialised _ _ tr1).2 0 [SupEvent.commit 1] ⟨[1], some 1, 2⟩
      rfl tr2,
    (c6_hotswap_serialised _ _ tr1).1⟩

/-! ## C9: pixel-map updates -/

/-- Writing 0 anywhere into an all-zero list changes nothing, so the
blanking loop of setup leaves the main frame data equal to its initial
all-zero state. -/
lemma c9_foldl_zero (rs : List ℕ) :
    rs.foldl (fun d p => d.set p (0:ℕ)) (List.replicate 776 0) =
      List.replicate 776 0 := by
  induction rs with
  | nil => rfl
  | cons r rs ih => rw [List.foldl_cons, List.set_replicate_self, ih]

/-- Setting pixel 7 of the all-zero frame to the encoding of black is a
no-op on the frame state. -/
lemma c9_set7 (lw : ℕ) :
    Frame.set_pixel ⟨lw, 776, List.replicate 776 0, List.replicate 776 0, some 5, true⟩
        ((7:ℕ) : ℤ) (rgb_to_24bit 100 0 0 0 0) =
      ⟨lw, 776, List.replicate 776 0, List.replicate 776 0, some 5, true⟩ := by
  have hblack : rgb_to_24bit 100 0 0 0 0 = 0 := by decide
  have hlen : (((List.replicate 776 (0:ℕ)).length : ℤ)) = 776 := by
    rw [List.length_replicate]
    norm_num
  rw [hblack]
  unfold Frame.set_pixel
  rw [if_pos ⟨by norm_num, by rw [hlen]; norm_num⟩]
  simp only [List.set_replicate_self]

/-- One loop tick of the pixel-map program holding the map
{7 : (0,0,0)} over the all-zero frame only refreshes the commit
timestamp. -/
lemma c9_tick (lw now : ℕ) :
    PixelPicker.loop 100
        ⟨⟨lw, 776, List.replicate 776 0, List.replicate 776 0, some 5, true⟩,
          false, [(7, 0, 0, 0)], 1⟩ now =
      .ok ⟨⟨now, 776, List.replicate 776 0, List.replicate 776 0, some 5, true⟩,
        false, [(7, 0, 0, 0)], 1⟩ := by
  have happ : pickerApply 100 false
      ⟨lw, 776, List.replicate 776 0, List.replicate 776 0, some 5, true⟩
      [(7, 0, 0, 0)] =
        .ok ⟨lw, 776, List.replicate 776 0, List.replicate 776 0, some 5, true⟩ := by
    simp only [pickerApply, Bool.false_eq_true, ite_false, c9_set7]
  simp only [PixelPicker.loop, happ, Bool.false_eq_true, ite_false]
  rfl

/-- The full two-post, two-tick scenario evaluated: both ticks only
touch pixel 7 with black, so the committed generation stays all-zero. -/
lemma c9_run_eval :
    c9run = .ok ⟨⟨2, 776, List.replicate 776 0, List.replicate 776 0, some 5, true⟩,
      false, [(7, 0, 0, 0)], 1⟩ := by
  have hblack : rgb_to_24bit 100 0 0 0 0 = 0 := by decide
  have hpp2 : c9pp2 =
      ⟨⟨0, 776, List.replicate 776 0, List.replicate 776 0, some 5, true⟩,
        false, [(7, 0, 0, 0)], 1⟩ := by
    unfold c9pp2 PixelPicker.on_picker_json PixelPicker.setup
    rw [hblack]
    unfold Frame.set_all frame_main Frame.init Frame.show'
    simp only [c9_foldl_zero]
  unfold c9run
  rw [hpp2, c9_tick 0 1]
  exact c9_tick 1 2

/-- C9 counterexample: the handler keeps no queue -- it replaces the
whole map.  After posting the update for pixel 5 and then the update for
pixel 7 (both before the next tick), two loop ticks leave pixel 5 at its
prior black value 0, not at the encoding of (10,20,30), because the
second post overwrote the first. -/
theorem c9_pixel_map_update_lost :
    c9pixel 5 = 0 ∧ rgb_to_24bit 100 10 20 30 0 ≠ 0 := by
  constructor
  · unfold c9pixel
    rw [c9_run_eval]
    decide
  · decide

/-- C9 as amended: on_picker_json replaces the pixel-map attribute
wholesale, so a later update posted before the next tick discards an
earlier one entirely; in the two-post scenario the surviving map is the
second update alone, and after two loop ticks pixel 7 holds the encoding
of (0,0,0) while pixel 5 keeps its prior value (black), the first update
having been lost. -/
theorem c9_pixel_map_replaced (pp : PixelPicker)
    (m1 m2 : List (ℕ × ℕ × ℕ × ℕ)) :
    (pp.on_picker_json m1).on_picker_json m2 = pp.on_picker_json m2
    ∧ c9pp2.data = [(7, 0, 0, 0)]
    ∧ c9pixel 7 = rgb_to_24bit 100 0 0 0 0
    ∧ c9pixel 5 = 0 := by
  refine ⟨rfl, rfl, ?_, ?_⟩
  · unfold c9pixel
    rw [c9_run_eval]
    decide
  · unfold c9pixel
    rw [c9_run_eval]
    decide

end EhlabLeds
